import Mathlib

/-!
Verification development for the AER daily report downloader
(`src/lambda/aer_downloader.py`).

Shallow embedding conventions:

* A Python `datetime.date` is represented by its proleptic Gregorian
  ordinal (`date.toordinal()`, an integer with `0001-01-01 ↦ 1`), as an
  `Int`.  Subtracting `timedelta(days=1)` is ordinal subtraction and
  `date.weekday()` (Monday = 0 … Sunday = 6) is `(ordinal + 6) % 7`.
* The zone-aware `now_utc.astimezone(ALBERTA_TZ)` conversion is an
  external library call; the resolver only reads the resulting local
  civil date, local hour and local weekday, so an instant is embedded as
  that local projection (`LocalTime`).
* Python exceptions become an error type `PyErr` returned through
  `Except`; `ValueError` raised by `datetime.strptime`/`date` is
  `PyErr.parseError`, the explicit `ValueError(f"Unknown dataset …")`
  is `PyErr.unknownDataset`.
* External collaborators (urllib, S3, SNS, Bedrock, hashlib) are inputs
  of the `handler` model (`HandlerEnv`); their observable calls are
  recorded in an explicit `Effects` log of attempted put / publish /
  delete operations.
-/

/-- Python `date.weekday()` on an ordinal: Monday = 0 … Sunday = 6.
Ordinal 1 (0001-01-01) is a Monday, so the weekday is `(n + 6) % 7`. -/
def weekday (n : Int) : Int := (n + 6) % 7

/-- The loop of `previous_business_day` with an explicit iteration
bound (the body can run at most twice, since a weekday is at most 6 and
each step lowers it); `previous_business_day_loop` below proves the
translation satisfies the while loop's defining equation. -/
def pbdGo : Int → Nat → Int
  | day, 0 => day
  | day, fuel + 1 => if weekday day > 4 then pbdGo (day - 1) fuel else day

/-- `previous_business_day` (aer_downloader.py lines 23–26):
`while day.weekday() > 4: day -= timedelta(days=1); return day`. -/
def previous_business_day (day : Int) : Int := pbdGo day 2

/-- Python leap-year rule (`calendar.isleap`, as used by `datetime.date`). -/
def isLeap (y : Nat) : Bool := (y % 4 == 0 && y % 100 != 0) || y % 400 == 0

/-- Length of month `m` of year `y` in the proleptic Gregorian calendar
(the validation `datetime.date` performs on construction). -/
def daysInMonth (y m : Nat) : Nat :=
  match m with
  | 1 => 31 | 2 => if isLeap y then 29 else 28 | 3 => 31 | 4 => 30
  | 5 => 31 | 6 => 30 | 7 => 31 | 8 => 31 | 9 => 30 | 10 => 31
  | 11 => 30 | 12 => 31 | _ => 0

/-- Days strictly before month `m` in year `y`. -/
def daysBeforeMonth (y m : Nat) : Nat :=
  (match m with
   | 1 => 0 | 2 => 31 | 3 => 59 | 4 => 90 | 5 => 120 | 6 => 151
   | 7 => 181 | 8 => 212 | 9 => 243 | 10 => 273 | 11 => 304 | _ => 334)
  + (if 2 < m && isLeap y then 1 else 0)

/-- `datetime.date(y, m, d).toordinal()` (CPython `_ymd2ord`). -/
def dateToOrdinal (y m d : Nat) : Int :=
  let yp : Int := (y : Int) - 1
  365 * yp + yp / 4 - yp / 100 + yp / 400 + (daysBeforeMonth y m : Int) + (d : Int)

/-- Ordinal back to `(year, month, day)` (civil-from-days; inverse of
`dateToOrdinal` on the calendar's range), used to model `strftime`. -/
def civilFromOrdinal (n : Int) : Int × Int × Int :=
  let z := n + 305
  let era := z / 146097
  let doe := z - era * 146097
  let yoe := (doe - doe / 1460 + doe / 36524 - doe / 146096) / 365
  let doy := doe - (365 * yoe + yoe / 4 - yoe / 100)
  let mp := (5 * doy + 2) / 153
  let d := doy - (153 * mp + 2) / 5 + 1
  let m := mp + (if mp < 10 then 3 else -9)
  (yoe + era * 400 + (if m ≤ 2 then 1 else 0), m, d)

/-- Zero-pad to two digits (`%m`, `%d`). -/
def pad2 (n : Int) : String :=
  if n < 10 then "0" ++ toString n else toString n

/-- Zero-pad to four digits (`%Y`). -/
def pad4 (n : Int) : String :=
  if n < 10 then "000" ++ toString n
  else if n < 100 then "00" ++ toString n
  else if n < 1000 then "0" ++ toString n
  else toString n

/-- `f"{day:%Y-%m-%d}"` on an ordinal. -/
def fmtDate (n : Int) : String :=
  let (y, m, d) := civilFromOrdinal n
  pad4 y ++ "-" ++ pad2 m ++ "-" ++ pad2 d

/-- `f"{day:%m%d}"` on an ordinal. -/
def fmtMMDD (n : Int) : String :=
  let (_, m, d) := civilFromOrdinal n
  pad2 m ++ pad2 d

/-- Python exceptions that the embedded functions can raise. -/
inductive PyErr where
  /-- `ValueError` raised inside `datetime.strptime` / the `date`
  constructor on a malformed override string. -/
  | parseError
  /-- `ValueError(f"Unknown dataset {tag}")`. -/
  | unknownDataset (tag : String)
  /-- `RuntimeError(f"Failed to download …")`. -/
  | runtimeError (msg : String)
  /-- transport failure from `urllib.request.urlopen` (not `HTTPError`). -/
  | urlError (msg : String)
  /-- a `botocore` `ClientError` whose code is re-raised. -/
  | clientError (code : String)
  /-- `TypeError` from `hashlib.sha256(None)`. -/
  | typeError
  /-- failure of an S3 / SNS / Bedrock call, propagated unmodified. -/
  | awsError (msg : String)
deriving DecidableEq

deriving instance DecidableEq for Except

/-- Split a character list at every dash (the behaviour of
`s.split("-")`: empty fields are kept, the empty input gives one empty
field). -/
def splitDashes : List Char → List (List Char)
  | [] => [[]]
  | c :: rest =>
    match splitDashes rest with
    | [] => [[c]]
    | h :: t => if c = '-' then [] :: h :: t else (c :: h) :: t

/-- A nonempty all-digit field (one alternative of CPython's
`_strptime` field regexes, restricted to ASCII digits). -/
def isDigits (cs : List Char) : Bool := !cs.isEmpty && cs.all Char.isDigit

/-- The numeric value of a digit field. -/
def digitsVal (cs : List Char) : Nat :=
  cs.foldl (fun a c => 10 * a + (c.toNat - 48)) 0

/-- `datetime.strptime(s, "%Y-%m-%d").date()`: `%Y` matches exactly four
digits, `%m` one or two digits valued 1–12, `%d` one or two digits
valued 1–31, separated by literal dashes with nothing left over; the
`date` constructor then checks `1 ≤ year` and that the day exists in the
month.  Returns the ordinal, or `none` where Python raises
`ValueError`. -/
def strptime_Ymd (s : String) : Option Int :=
  match splitDashes s.data with
  | [ys, ms, ds] =>
    if isDigits ys && ys.length == 4 &&
       isDigits ms && ms.length ≤ 2 &&
       isDigits ds && ds.length ≤ 2 then
      let y := digitsVal ys
      let m := digitsVal ms
      let d := digitsVal ds
      if 1 ≤ y && 1 ≤ m && m ≤ 12 && 1 ≤ d && d ≤ daysInMonth y m then
        some (dateToOrdinal y m d)
      else none
    else none
  | _ => none

/-- The publisher-local projection of an instant: the civil date
(`now_ab.date()`, as an ordinal) and hour (`now_ab.hour`) after
`now_utc.astimezone(ALBERTA_TZ)`.  `now_ab.weekday()` is recovered as
`weekday date`. -/
structure LocalTime where
  date : Int
  hour : Int
deriving DecidableEq

/-- Python truthiness of `os.getenv("REPORT_DATE")`: `None` and the
empty string are falsy. -/
def truthy (o : Option String) : Bool :=
  match o with
  | none => false
  | some s => !s.isEmpty

/-- `resolve_report_date` (aer_downloader.py lines 29–54).  `override`
is the value of the `REPORT_DATE` environment variable (`none` when
unset); `now` is the Alberta-local projection of the current instant. -/
def resolve_report_date (dataset : String) (override : Option String)
    (now : LocalTime) : Except PyErr Int :=
  if truthy override then
    match strptime_Ymd (override.getD "") with
    | some d => .ok d
    | none => .error .parseError
  else if dataset == "ST1" then
    if now.hour < 10 then .ok (previous_business_day (now.date - 1))
    else .ok (previous_business_day now.date)
  else if dataset == "ST100" then
    if weekday now.date > 4 then .ok (previous_business_day now.date)
    else if now.hour < 21 then .ok (previous_business_day (now.date - 1))
    else .ok (previous_business_day now.date)
  else .error (.unknownDataset dataset)

/-- `build_url` (aer_downloader.py lines 57–63). -/
def build_url (dataset : String) (day : Int) : Except PyErr String :=
  let mmdd := fmtMMDD day
  if dataset == "ST1" then
    .ok ("https://static.aer.ca/data/well-lic/WELLS" ++ mmdd ++ ".txt")
  else if dataset == "ST100" then
    .ok ("https://static.aer.ca/prd/data/pipeconst/PIPE" ++ mmdd ++ ".txt")
  else .error (.unknownDataset dataset)

/-- Python `str.lower()`, modeled character-wise. -/
def strLower (s : String) : String := String.mk (s.data.map Char.toLower)

/-- `s3_key` (aer_downloader.py lines 66–67):
`f"{day:%Y/%m/%d}/{dataset.lower()}_{day:%Y%m%d}.{ext}"`.  Note that it
performs no dataset validation. -/
def s3_key (day : Int) (dataset : String) (ext : String) : String :=
  let (y, m, d) := civilFromOrdinal day
  pad4 y ++ "/" ++ pad2 m ++ "/" ++ pad2 d ++ "/" ++ strLower dataset ++ "_"
    ++ pad4 y ++ pad2 m ++ pad2 d ++ "." ++ ext

/-- Outcome of the single `urllib.request.urlopen` call made by
`http_get`: a response (`getcode()` value and body bytes, modeled as a
string), an `HTTPError`, or a transport failure that propagates. -/
inductive FetchOutcome where
  | success (status : Option Int) (body : String)
  | httpError (code : Int)
  | failure (msg : String)
deriving DecidableEq

/-- `http_get` (aer_downloader.py lines 70–78): returns
`(status, data)` on success, `(e.code, None)` on `HTTPError`, and lets
any other exception propagate. -/
def http_get (f : FetchOutcome) : Except PyErr (Option Int × Option String) :=
  match f with
  | .success st b => .ok (st, some b)
  | .httpError c => .ok (some c, none)
  | .failure m => .error (.urlError m)

/-- The HTTP status a `FetchOutcome` reports (`none` when the fetch
fails at transport level and no status exists). -/
def fetchStatus (f : FetchOutcome) : Option Int :=
  match f with
  | .success st _ => st
  | .httpError c => some c
  | .failure _ => none

/-- The Bedrock prompt built by `summarize_with_bedrock`
(aer_downloader.py lines 81–97) from `(dataset, preview)` items:
each preview is truncated to 8000 characters. -/
def bedrock_prompt (day : Int) (items : List (String × String)) : String :=
  let blocks := items.map fun it =>
    "Dataset " ++ it.1 ++ " (" ++ fmtDate day ++ "):\n" ++ it.2.take 8000
  "You are an oil & gas analyst.\n" ++
  "Summarize today's AER releases (ST1 well licenses, ST100 pipeline construction notices).\n" ++
  "Provide:\n" ++
  "- Key totals and notable entries\n" ++
  "- Any unusual spikes vs typical days\n" ++
  "- Operator or region callouts\n" ++
  "- Short, actionable insights\n\n" ++
  "Text:\n\n" ++ String.intercalate "\n" blocks

/-- One `S3.put_object` call with its metadata. -/
structure S3Put where
  key : String
  body : String
  source_url : String
  sha256 : String
  dataset : String
deriving DecidableEq

/-- Log of the collaborator calls the handler attempted: storage
writes, notification publishes `(subject, message)`, storage deletes. -/
structure Effects where
  puts : List S3Put
  publishes : List (String × String)
  deletes : List String
deriving DecidableEq

/-- The empty effect log. -/
def noEffects : Effects := ⟨[], [], []⟩

/-- Structured result returned by `handler`. -/
structure HandlerResult where
  dataset : String
  date : String
  status : String
  url : String
deriving DecidableEq

/-- The external world a single `handler` invocation interacts with:
the `REPORT_DATE` environment variable, the current Alberta-local time,
the outcome of the one network fetch, and the behaviour of hashlib,
`S3.head_object` (metadata on success, error code on `ClientError`),
`S3.put_object`, UTF-8 decoding with replacement, Bedrock, SNS and
`S3.delete_object`. -/
structure HandlerEnv where
  reportDateEnv : Option String
  now : LocalTime
  fetch : FetchOutcome
  hashOf : String → String
  headObject : String → Except String (List (String × String))
  putError : Option PyErr
  decodeReplace : String → String
  summarize : String → Except PyErr String
  publishError : Option PyErr
  deleteError : Option PyErr

/-- `ClientError` codes that `handler` swallows after `head_object`. -/
def ignoredHeadCodes : List String :=
  ["404", "NoSuchKey", "NotFound", "403", "AccessDenied"]

/-- `handler` (aer_downloader.py lines 122–176), with the collaborator
calls it attempts recorded in an `Effects` log.  A raised exception is
an `Except.error` paired with the effects attempted up to that point. -/
def handler (env : HandlerEnv) (dataset : String) :
    Except PyErr HandlerResult × Effects :=
  match resolve_report_date dataset env.reportDateEnv env.now with
  | .error e => (.error e, noEffects)
  | .ok day =>
  match build_url dataset day with
  | .error e => (.error e, noEffects)
  | .ok url =>
  match http_get env.fetch with
  | .error e => (.error e, noEffects)
  | .ok (status, content) =>
  if status == some 404 then
    (.ok ⟨dataset, fmtDate day, "not_ready", url⟩, noEffects)
  else if (match status with | none => true | some s => s ≥ 400) then
    (.error (.runtimeError ("Failed to download " ++ url)), noEffects)
  else
  match content with
  | none => (.error .typeError, noEffects)
  | some body =>
  let sha := env.hashOf body
  let key := s3_key day dataset "txt"
  let headFatal : Option String :=
    match env.headObject key with
    | .ok _ => none
    | .error code =>
      if ignoredHeadCodes.contains code then none else some code
  match headFatal with
  | some code => (.error (.clientError code), noEffects)
  | none =>
  let put : S3Put := ⟨key, body, url, sha, dataset⟩
  match env.putError with
  | some e => (.error e, ⟨[put], [], []⟩)
  | none =>
  let text_preview := env.decodeReplace body
  match env.summarize (bedrock_prompt day [(dataset, text_preview)]) with
  | .error e => (.error e, ⟨[put], [], []⟩)
  | .ok summary =>
  let subject := "AER " ++ dataset ++ " summary – " ++ fmtDate day
  let message := "Daily AER Summary – " ++ fmtDate day ++ "\nDataset: "
    ++ dataset ++ "\n\n" ++ summary ++ "\n\nSource (temporary S3 key): " ++ key
  match env.publishError with
  | some e => (.error e, ⟨[put], [(subject, message)], []⟩)
  | none =>
  match env.deleteError with
  | some e => (.error e, ⟨[put], [(subject, message)], [key]⟩)
  | none =>
    (.ok ⟨dataset, fmtDate day, "emailed_and_deleted", url⟩,
     ⟨[put], [(subject, message)], [key]⟩)

/-! ## Basic facts about `weekday` and `previous_business_day` -/

lemma weekday_nonneg (d : Int) : 0 ≤ weekday d := by
  simp only [weekday]; omega

lemma weekday_lt_seven (d : Int) : weekday d < 7 := by
  simp only [weekday]; omega

lemma previous_business_day_of_le (d : Int) (h : weekday d ≤ 4) :
    previous_business_day d = d := by
  simp only [previous_business_day, pbdGo]
  rw [if_neg (show ¬weekday d > 4 by omega)]

lemma previous_business_day_of_sat (d : Int) (h : weekday d = 5) :
    previous_business_day d = d - 1 := by
  simp only [previous_business_day, pbdGo]
  rw [if_pos (show weekday d > 4 by omega),
    if_neg (show ¬weekday (d - 1) > 4 by simp only [weekday] at h ⊢; omega)]

lemma previous_business_day_of_sun (d : Int) (h : weekday d = 6) :
    previous_business_day d = d - 2 := by
  simp only [previous_business_day, pbdGo]
  rw [if_pos (show weekday d > 4 by omega),
    if_pos (show weekday (d - 1) > 4 by simp only [weekday] at h ⊢; omega)]
  omega

lemma weekday_cases (d : Int) :
    weekday d ≤ 4 ∨ weekday d = 5 ∨ weekday d = 6 := by
  simp only [weekday]; omega

/-- The fuel-bounded translation of the `while` loop satisfies the
loop's defining equation, so `previous_business_day` is the loop
`while day.weekday() > 4: day -= timedelta(days=1)`. -/
theorem previous_business_day_loop (d : Int) :
    previous_business_day d =
      if weekday d > 4 then previous_business_day (d - 1) else d := by
  rcases weekday_cases d with h | h | h
  · rw [previous_business_day_of_le d h,
      if_neg (show ¬weekday d > 4 by omega)]
  · rw [previous_business_day_of_sat d h,
      if_pos (show weekday d > 4 by omega),
      previous_business_day_of_le (d - 1)
        (by simp only [weekday] at h ⊢; omega)]
  · rw [previous_business_day_of_sun d h,
      if_pos (show weekday d > 4 by omega),
      previous_business_day_of_sat (d - 1)
        (by simp only [weekday] at h ⊢; omega)]
    omega

/-- C3: for every civil date `d`, `previous_business_day d` falls on
Monday–Friday; it equals `d` iff `d` itself is a Monday–Friday; a
Saturday maps to the Friday one day earlier and a Sunday to the Friday
two days earlier. -/
theorem previous_business_day_spec (d : Int) :
    weekday (previous_business_day d) ≤ 4 ∧
    (previous_business_day d = d ↔ weekday d ≤ 4) ∧
    (weekday d = 5 → previous_business_day d = d - 1) ∧
    (weekday d = 6 → previous_business_day d = d - 2) := by
  rcases weekday_cases d with h | h | h
  · rw [previous_business_day_of_le d h]
    exact ⟨h, by simp [h], fun h5 => absurd h5 (by omega),
      fun h6 => absurd h6 (by omega)⟩
  · rw [previous_business_day_of_sat d h]
    refine ⟨by simp only [weekday] at *; omega, ?_, fun _ => rfl,
      fun h6 => absurd h6 (by omega)⟩
    constructor
    · intro he; omega
    · intro hle; omega
  · rw [previous_business_day_of_sun d h]
    refine ⟨by simp only [weekday] at *; omega, ?_,
      fun h5 => absurd h5 (by omega), fun _ => rfl⟩
    constructor
    · intro he; omega
    · intro hle; omega

/-- Witness for C3 at the concrete Saturday 2024-03-16 (ordinal 738961):
its `previous_business_day` is the preceding day and lands on a
weekday. -/
theorem previous_business_day_spec_witness :
    weekday (previous_business_day 738961) ≤ 4 ∧
    previous_business_day 738961 = 738961 - 1 :=
  ⟨(previous_business_day_spec 738961).1,
   (previous_business_day_spec 738961).2.2.1 (by decide)⟩

/-- C4: `previous_business_day` is idempotent. -/
theorem previous_business_day_idem (d : Int) :
    previous_business_day (previous_business_day d) = previous_business_day d :=
  previous_business_day_of_le _ (previous_business_day_spec d).1

/-! ## The resolver rules (no override) -/

/-- C1: with no override, dataset `ST1` resolves to
`previous_business_day (local_date - 1)` before the 10:00 local cutoff
and to `previous_business_day local_date` from 10:00 on. -/
theorem resolve_report_date_ST1_rule (t : LocalTime) :
    resolve_report_date "ST1" none t =
      .ok (if t.hour < 10 then previous_business_day (t.date - 1)
           else previous_business_day t.date) := by
  simp only [resolve_report_date, truthy, Bool.false_eq_true, if_false,
    beq_self_eq_true, if_true]
  split <;> rfl

/-- C2: with no override, dataset `ST100` resolves to
`previous_business_day local_date` on Saturdays and Sundays, otherwise
to `previous_business_day (local_date - 1)` before the 21:00 local
cutoff and `previous_business_day local_date` from 21:00 on. -/
theorem resolve_report_date_ST100_rule (t : LocalTime) :
    resolve_report_date "ST100" none t =
      .ok (if weekday t.date = 5 ∨ weekday t.date = 6 then
             previous_business_day t.date
           else if t.hour < 21 then previous_business_day (t.date - 1)
           else previous_business_day t.date) := by
  have hne : ("ST100" == "ST1") = false := by decide
  simp only [resolve_report_date, truthy, Bool.false_eq_true, if_false,
    hne, beq_self_eq_true, if_true]
  have h7 := weekday_lt_seven t.date
  have h0 := weekday_nonneg t.date
  by_cases hw : weekday t.date > 4
  · rw [if_pos hw,
      if_pos (show weekday t.date = 5 ∨ weekday t.date = 6 by omega)]
  · rw [if_neg hw,
      if_neg (show ¬(weekday t.date = 5 ∨ weekday t.date = 6) by omega)]
    by_cases hh : t.hour < 21
    · rw [if_pos hh, if_pos hh]
    · rw [if_neg hh, if_neg hh]

/-! ## Override handling -/

/-- C5: a supplied (non-empty) override that parses as `YYYY-MM-DD` is
returned verbatim, for every dataset and instant; a supplied override
that fails to parse raises the parse error and never falls through to
the rule logic. -/
theorem resolve_report_date_override (dataset : String) (t : LocalTime)
    (s : String) (hs : s ≠ "") :
    (∀ d, strptime_Ymd s = some d →
       resolve_report_date dataset (some s) t = .ok d) ∧
    (strptime_Ymd s = none →
       resolve_report_date dataset (some s) t = .error .parseError) := by
  have hie : s.isEmpty = false := by
    cases hh : s.isEmpty
    · rfl
    · exact absurd ((String.isEmpty_iff s).mp hh) hs
  have ht : truthy (some s) = true := by
    simp only [truthy, hie, Bool.not_false]
  constructor
  · intro d hd
    simp only [resolve_report_date, ht, if_true, Option.getD_some, hd]
  · intro hn
    simp only [resolve_report_date, ht, if_true, Option.getD_some, hn]

/-- Witness for C5: override `2024-03-15` is returned verbatim even for
an unknown dataset, and the malformed override `2024-02-30` (February
has no 30th) raises the parse error for `ST1`. -/
theorem resolve_report_date_override_witness :
    resolve_report_date "BOGUS" (some "2024-03-15") ⟨738958, 12⟩ = .ok 738960 ∧
    resolve_report_date "ST1" (some "2024-02-30") ⟨738958, 12⟩ =
      .error .parseError :=
  ⟨(resolve_report_date_override "BOGUS" ⟨738958, 12⟩ "2024-03-15"
      (by decide)).1 738960 (by decide),
   (resolve_report_date_override "ST1" ⟨738958, 12⟩ "2024-02-30"
      (by decide)).2 (by decide)⟩

/-- C10: an override environment value set to the empty string is
treated exactly like an absent one — rule-based resolution applies and
no parse error is raised. -/
theorem resolve_report_date_empty_override (dataset : String) (t : LocalTime) :
    resolve_report_date dataset (some "") t =
      resolve_report_date dataset none t ∧
    resolve_report_date dataset (some "") t ≠ .error .parseError := by
  have h : truthy (some "") = false := rfl
  have h0 : truthy none = false := rfl
  constructor
  · simp only [resolve_report_date, h, h0, Bool.false_eq_true, if_false]
  · simp only [resolve_report_date, h, Bool.false_eq_true, if_false]
    split
    · split <;> simp
    · split
      · split
        · simp
        · split <;> simp
      · simp

/-- Witness for C10 at dataset `ST1` and a concrete Wednesday noon. -/
theorem resolve_report_date_empty_override_witness :
    resolve_report_date "ST1" (some "") ⟨738958, 12⟩ =
      resolve_report_date "ST1" none ⟨738958, 12⟩ ∧
    resolve_report_date "ST1" (some "") ⟨738958, 12⟩ ≠ .error .parseError :=
  resolve_report_date_empty_override "ST1" ⟨738958, 12⟩

/-! ## Unknown datasets -/

/-- C6 counterexample: with a well-formed override the resolver returns
a date for the unknown dataset `FOO` instead of failing, and `s3_key`
builds a key for `FOO` instead of failing (it never checks the
dataset). -/
theorem unknown_dataset_not_always_rejected :
    resolve_report_date "FOO" (some "2024-03-15") ⟨738958, 12⟩ = .ok 738960 ∧
    s3_key 738960 "FOO" "txt" = "2024/03/15/foo_20240315.txt" := by
  constructor <;> rfl

/-- C6 amended: with no override, the resolver rejects every dataset
tag outside `{ST1, ST100}` with the unknown-dataset error, and so does
`build_url` for every date; `s3_key` performs no dataset validation. -/
theorem unknown_dataset_rejected (dataset : String) (t : LocalTime) (d : Int)
    (h1 : dataset ≠ "ST1") (h2 : dataset ≠ "ST100") :
    resolve_report_date dataset none t = .error (.unknownDataset dataset) ∧
    build_url dataset d = .error (.unknownDataset dataset) := by
  have b1 : (dataset == "ST1") = false := by
    rw [beq_eq_false_iff_ne]; exact h1
  have b2 : (dataset == "ST100") = false := by
    rw [beq_eq_false_iff_ne]; exact h2
  constructor
  · simp only [resolve_report_date, truthy, Bool.false_eq_true, if_false,
      b1, b2]
  · simp only [build_url, b1, b2, Bool.false_eq_true, if_false]

/-- Witness for C6 (amended) at the unknown tag `WELLSX`. -/
theorem unknown_dataset_rejected_witness :
    resolve_report_date "WELLSX" none ⟨738958, 12⟩ =
      .error (.unknownDataset "WELLSX") ∧
    build_url "WELLSX" 738958 = .error (.unknownDataset "WELLSX") :=
  unknown_dataset_rejected "WELLSX" ⟨738958, 12⟩ 738958 (by decide) (by decide)

/-! ## Weekday guarantee -/

/-- C7 counterexample: with override `2024-03-16` (a Saturday, ordinal
738961) the resolver returns a date that falls on a Saturday. -/
theorem resolve_report_date_weekend_override :
    resolve_report_date "ST1" (some "2024-03-16") ⟨738958, 12⟩ = .ok 738961 ∧
    weekday 738961 = 5 := by
  constructor <;> rfl

/-- C7 amended: whenever no (non-empty) override is supplied and the
resolver returns a date, that date falls on Monday–Friday. -/
theorem resolve_report_date_weekday (dataset : String) (o : Option String)
    (t : LocalTime) (d : Int) (ho : truthy o = false)
    (h : resolve_report_date dataset o t = .ok d) :
    weekday d ≤ 4 := by
  simp only [resolve_report_date, ho, Bool.false_eq_true, if_false] at h
  split at h
  · split at h <;>
      (injection h with h; subst h; exact (previous_business_day_spec _).1)
  · split at h
    · split at h
      · injection h with h; subst h
        exact (previous_business_day_spec _).1
      · split at h <;>
          (injection h with h; subst h; exact (previous_business_day_spec _).1)
    · exact absurd h (by simp)

/-- Witness for C7 (amended): the date resolved for `ST1` on Wednesday
2024-03-13 at noon with no override is a weekday. -/
theorem resolve_report_date_weekday_witness : weekday 738958 ≤ 4 :=
  resolve_report_date_weekday "ST1" none ⟨738958, 12⟩ 738958 rfl (by decide)

/-! ## The pipeline -/

/-- An environment for a fully successful invocation: Wednesday
2024-03-13 at noon Alberta time, no override, a 200 response, and all
collaborators succeeding. -/
def envOk : HandlerEnv :=
  { reportDateEnv := none
    now := ⟨738958, 12⟩
    fetch := .success (some 200) "RAWDATA"
    hashOf := fun _ => "abc123"
    headObject := fun _ => .error "404"
    putError := none
    decodeReplace := fun s => s
    summarize := fun _ => .ok "SUMMARY"
    publishError := none
    deleteError := none }

/-- The same environment except that the fetch reports 404. -/
def env404 : HandlerEnv := { envOk with fetch := .httpError 404 }

/-- C8: in every invocation that reaches the fetch of the built URL and
whose fetch reports status 404, the handler returns the structured
result with status exactly `not_ready` and attempts no storage write,
no notification send, and no delete. -/
theorem handler_not_found (env : HandlerEnv) (dataset : String) (day : Int)
    (url : String)
    (hres : resolve_report_date dataset env.reportDateEnv env.now = .ok day)
    (hurl : build_url dataset day = .ok url)
    (hfetch : fetchStatus env.fetch = some 404) :
    handler env dataset =
      (.ok ⟨dataset, fmtDate day, "not_ready", url⟩, noEffects) := by
  cases hf : env.fetch with
  | success st b =>
    simp only [fetchStatus, hf] at hfetch
    subst hfetch
    simp only [handler, hres, hurl, http_get, hf]
    rfl
  | httpError c =>
    simp only [fetchStatus, hf] at hfetch
    injection hfetch with hc
    subst hc
    simp only [handler, hres, hurl, http_get, hf]
    rfl
  | failure m =>
    simp only [fetchStatus, hf] at hfetch
    exact Option.noConfusion hfetch

/-- Witness for C8: the 404 environment yields the `not_ready` result
and the empty effect log. -/
theorem handler_not_found_witness :
    handler env404 "ST1" =
      (.ok ⟨"ST1", fmtDate 738958, "not_ready",
        "https://static.aer.ca/data/well-lic/WELLS0313.txt"⟩, noEffects) :=
  handler_not_found env404 "ST1" 738958
    "https://static.aer.ca/data/well-lic/WELLS0313.txt"
    (by decide) (by decide) rfl

/-- C9 counterexample: a fully successful concrete invocation publishes
its notification with subject `"AER ST1 summary – 2024-03-13"`, which
differs from `"ST1 summary – 2024-03-13"` — the subject the claim
states (dataset tag followed by ` summary – ` and the date). -/
theorem handler_subject_counterexample :
    (handler envOk "ST1").1 =
      .ok ⟨"ST1", "2024-03-13", "emailed_and_deleted",
        "https://static.aer.ca/data/well-lic/WELLS0313.txt"⟩ ∧
    (handler envOk "ST1").2.publishes.map Prod.fst =
      ["AER ST1 summary – 2024-03-13"] ∧
    "AER ST1 summary – 2024-03-13" ≠ "ST1 summary – 2024-03-13" :=
  ⟨by decide, by decide, by decide⟩

/-- C9 amended: every successful invocation publishes exactly one
notification, whose subject line is exactly
`"AER <DATASET> summary – <date>"` for the dataset tag and the resolved
report date. -/
theorem handler_subject (env : HandlerEnv) (dataset : String)
    (r : HandlerResult) (eff : Effects)
    (h : handler env dataset = (.ok r, eff))
    (hs : r.status = "emailed_and_deleted") :
    eff.publishes.map Prod.fst =
      ["AER " ++ dataset ++ " summary – " ++ r.date] := by
  simp only [handler] at h
  repeat' split at h
  all_goals
    rw [Prod.mk.injEq] at h
    obtain ⟨h1, h2⟩ := h
    first
      | exact Except.noConfusion h1
      | (injection h1 with h1; subst h1; subst h2; simp_all)

/-- Witness for C9 (amended), instantiated at the successful concrete
invocation. -/
theorem handler_subject_witness :
    (handler envOk "ST1").2.publishes.map Prod.fst =
      ["AER " ++ "ST1" ++ " summary – " ++
        (HandlerResult.mk "ST1" "2024-03-13" "emailed_and_deleted"
          "https://static.aer.ca/data/well-lic/WELLS0313.txt").date] :=
  handler_subject envOk "ST1"
    ⟨"ST1", "2024-03-13", "emailed_and_deleted",
      "https://static.aer.ca/data/well-lic/WELLS0313.txt"⟩
    (handler envOk "ST1").2 (by decide) (by decide)

